import Mathlib

/-!
# LocalAI Assistant — verification of the streaming chat client

A shallow embedding of the client logic of the LocalAI Assistant
repository, together with proofs about it.  The embedded code comes from

* `src/frontend/src/lib/api.ts` — the HTTP/stream API client
  (`sendMessageStream`, `getConversations`, …);
* `src/frontend/src/lib/store.ts` — the global state store
  (`appendStreamingContent`, `setStreamingContent`, …);
* `src/App.tsx` — the conversation orchestrator (`handleSendMessage`).

JavaScript string operations used by that code (`split('\n')`,
`startsWith`, `slice`, `trim`) are modelled character by character so
that all definitions compute.  `JSON.parse` is a platform primitive, not
repository code, so the stream consumer is parameterised by an abstract
parse function `String → Option DataLine`; the protocol (spec §6) fixes
the payload shape to `\x7b conversation_id?: string, content?: string \x7d`.
The incremental `TextDecoder` is likewise a platform primitive: the
consumer is modelled over the list of decoded text fragments produced by
the successive `reader.read()` calls.
-/

namespace LocalAI

/-! ## JavaScript string primitives -/

/-- Character-level worker for `String.split('\n')`: splitting the empty
string yields one empty field, and every `'\n'` opens a new field. -/
def splitNlAux : List Char → List (List Char)
  | [] => [[]]
  | c :: cs =>
    if c = '\n' then [] :: splitNlAux cs
    else match splitNlAux cs with
      | h :: t => (c :: h) :: t
      | [] => [[c]]

/-- JavaScript `s.split('\n')`. -/
def jsSplitNl (s : String) : List String :=
  (splitNlAux s.data).map String.mk

/-- JavaScript `s.startsWith(p)`. -/
def jsStartsWith (p s : String) : Bool :=
  p.data.isPrefixOf s.data

/-- JavaScript `s.slice(n)` (for a non-negative index). -/
def jsSlice (n : Nat) (s : String) : String :=
  String.mk (s.data.drop n)

/-- JavaScript `s.trim()`: whitespace stripped from both ends. -/
def jsTrim (s : String) : String :=
  String.mk (((s.data.dropWhile Char.isWhitespace).reverse.dropWhile
    Char.isWhitespace).reverse)

/-- JavaScript truthiness of an optional string value: `null`/absent and
the empty string are falsy, every other string is truthy. -/
def jsTruthy : Option String → Bool
  | some s => s != ""
  | none => false

/-! ## Data model (`src/frontend/src/lib/store.ts`)

The floating-point sampling parameters (`temperature`, `top_p`) carried
by `Conversation` and `Settings` are never read by any logic verified
below and are left out of the embedding. -/

/-- `Message.role` from `store.ts`. -/
inductive Role where
  | user
  | assistant
deriving DecidableEq

/-- A chat message, from `store.ts`. -/
structure Message where
  id : String
  role : Role
  content : String
  timestamp : String
  tokens : Option Nat
deriving DecidableEq

/-- A conversation, from `store.ts`. -/
structure Conversation where
  uuid : String
  title : String
  model : String
  top_k : Nat
  max_tokens : Nat
  messages : List Message
  created_at : String
  updated_at : String
deriving DecidableEq

/-- Client settings, from `store.ts` (float-valued fields omitted). -/
structure Settings where
  defaultModel : String
  topK : Nat
  maxTokens : Nat
  streamResponses : Bool
deriving DecidableEq

/-! ## Stream consumer (`sendMessageStream`, `api.ts` lines 124–182) -/

/-- The JSON object carried after the `data: ` marker of one stream
line: `\x7b conversation_id?: string, content?: string \x7d` (spec §6). -/
structure DataLine where
  conversation_id : Option String
  content : Option String
deriving DecidableEq

/-- One iteration of the `for (const line of lines)` body
(`api.ts` lines 160–174).  The accumulator carries the `conversationId`
variable and the list of `onChunk` invocations made so far, each
recorded as `(chunk, done)`.  A line that does not start with `data: `,
or whose remainder fails to parse, leaves the accumulator unchanged. -/
def processLine (parse : String → Option DataLine)
    (acc : String × List (String × Bool)) (line : String) :
    String × List (String × Bool) :=
  if jsStartsWith "data: " line then
    match parse (jsSlice 6 line) with
    | some d =>
        let cid := match d.conversation_id with
          | some c => if c != "" then c else acc.1
          | none => acc.1
        let evs := match d.content with
          | some c => if c != "" then acc.2 ++ [(c, false)] else acc.2
          | none => acc.2
        (cid, evs)
    | none => acc
  else acc

/-- Processing of one decoded `reader.read()` fragment
(`api.ts` lines 157–174): split the fragment on `'\n'` and run the line
loop.  Note that each fragment is split on its own — there is no
carry-over buffer for a line left incomplete by the previous read. -/
def processChunk (parse : String → Option DataLine)
    (acc : String × List (String × Bool)) (chunk : String) :
    String × List (String × Bool) :=
  (jsSplitNl chunk).foldl (processLine parse) acc

/-- The `while (true)` read loop of `sendMessageStream`
(`api.ts` lines 149–177), over the decoded text fragments of the
successive successful reads: every fragment is processed in order, the
`done` signal triggers `onChunk('', true)`, and the loop result is the
final `conversationId` together with the full `onChunk` call list. -/
def sendMessageStreamLoop (parse : String → Option DataLine)
    (reads : List String) : String × List (String × Bool) :=
  let r := reads.foldl (processChunk parse) ("", [])
  (r.1, r.2 ++ [("", true)])

/-- The `fetch` response as seen by `sendMessageStream`: HTTP success
flag, status code, and — when readable — the decoded text fragments the
body's reader will deliver (`none` models an unreadable body). -/
structure FetchResponse where
  ok : Bool
  status : Nat
  body : Option (List String)

/-- The observable outcome of one `sendMessageStream` call:
`ret = some cid` when the promise resolves with `cid`, `ret = none` when
it rejects; `events` lists every `onChunk` invocation made. -/
structure StreamRun where
  ret : Option String
  events : List (String × Bool)
deriving DecidableEq

/-- `sendMessageStream` (`api.ts` lines 124–182): a non-ok status or an
unreadable body throws before any read, otherwise the read loop runs to
completion and the recorded conversation id is returned. -/
def sendMessageStream (parse : String → Option DataLine)
    (resp : FetchResponse) : StreamRun :=
  if !resp.ok then { ret := none, events := [] }
  else match resp.body with
    | none => { ret := none, events := [] }
    | some reads =>
        let r := sendMessageStreamLoop parse reads
        { ret := some r.1, events := r.2 }

/-- A concrete parse function agreeing with `JSON.parse` on the payload
strings used by the concrete test streams below; every other string —
in particular every truncated fragment of them — fails to parse. -/
def sampleParse : String → Option DataLine := fun s =>
  if s = "\x7b\"conversation_id\":\"abc\"\x7d" then
    some { conversation_id := some "abc", content := none }
  else if s = "\x7b\"conversation_id\":\"\"\x7d" then
    some { conversation_id := some "", content := none }
  else if s = "\x7b\"conversation_id\":\"c77\"\x7d" then
    some { conversation_id := some "c77", content := none }
  else if s = "\x7b\"content\":\"x\"\x7d" then
    some { conversation_id := none, content := some "x" }
  else if s = "\x7b\"content\":\"Hel\"\x7d" then
    some { conversation_id := none, content := some "Hel" }
  else if s = "\x7b\"content\":\"lo\"\x7d" then
    some { conversation_id := none, content := some "lo" }
  else if s = "\x7b\"content\":\" world\"\x7d" then
    some { conversation_id := none, content := some " world" }
  else if s = "\x7b\"content\":\"\"\x7d" then
    some { conversation_id := none, content := some "" }
  else
    none

/-! ## Conversation list fetch (`getConversations`, `api.ts` lines 71–79) -/

/-- What the `axios` GET of `/conversations/` yields to
`getConversations`: either a thrown error (connection failure or non-2xx
status), or a response body whose `conversations` field is present or
absent. -/
def getConversations
    (resp : Except String (Option (List Conversation))) : List Conversation :=
  match resp with
  | .error _ => []
  | .ok none => []
  | .ok (some cs) => cs

/-! ## Global store actions (`src/frontend/src/lib/store.ts`) -/

/-- The slice of the Zustand store read and written by
`handleSendMessage`. -/
structure AppState where
  conversations : List Conversation
  activeConversationId : Option String
  isGenerating : Bool
  streamingContent : String
deriving DecidableEq

/-- `setIsGenerating` (`store.ts` line 268). -/
def setIsGenerating (s : AppState) (b : Bool) : AppState :=
  { s with isGenerating := b }

/-- `setStreamingContent` (`store.ts` line 270). -/
def setStreamingContent (s : AppState) (c : String) : AppState :=
  { s with streamingContent := c }

/-- `appendStreamingContent` (`store.ts` lines 271–274). -/
def appendStreamingContent (s : AppState) (c : String) : AppState :=
  { s with streamingContent := s.streamingContent ++ c }

/-- `setActiveConversation` (`store.ts` line 264). -/
def setActiveConversation (s : AppState) (id : Option String) : AppState :=
  { s with activeConversationId := id }

/-! ## Conversation orchestrator (`handleSendMessage`, `App.tsx` lines 126–179) -/

/-- React-query cache keys invalidated by the orchestrator. -/
inductive QueryKey where
  | conversations
  | conversation (id : Option String)
deriving DecidableEq

/-- The externally visible side effects of one `handleSendMessage`
call: how many HTTP requests were attempted, which query keys were
invalidated, and which error toasts were shown. -/
structure Effects where
  requests : Nat
  invalidated : List QueryKey
  toasts : List String
deriving DecidableEq

/-- No side effects at all. -/
def Effects.none : Effects :=
  { requests := 0, invalidated := [], toasts := [] }

/-- The behaviour of the awaited `sendMessageStream` call as the
orchestrator observes it: the `onChunk` invocations it makes (in
order), and `ret = some cid` if it resolves with `cid`, `ret = none` if
it rejects (any `onChunk` calls made before the rejection are still in
`events`). -/
structure StreamCall where
  events : List (String × Bool)
  ret : Option String
deriving DecidableEq

/-- The `onChunk` callback `handleSendMessage` passes to
`sendMessageStream` (`App.tsx` lines 144–148): non-final chunks are
appended to the streaming buffer, the final callback is ignored. -/
def applyOnChunk (s : AppState) (e : String × Bool) : AppState :=
  if e.2 then s else appendStreamingContent s e.1

/-- `handleSendMessage` (`App.tsx` lines 126–179).

Inputs beyond the message `content` and the store state `s`: the
current `settings` (selecting the streaming or the blocking path), and
the outcome the network produces on whichever path runs — `streamCall`
for `sendMessageStream`, `sendResp` for the blocking `sendMessage`
(`some cid` on success, `none` when it throws).

The guard `if (!content.trim() \x7c\x7c isGenerating) return` makes the call a
no-op with no effects.  Otherwise the generation flag is set and the
buffer cleared; the chosen request runs; on success the returned
conversation id is adopted when none was active, and the two query keys
are invalidated — using the `activeConversationId` value captured when
the call began, since the closure variable never changes.  On failure an
error toast is shown and nothing is invalidated.  The `finally` block
clears the flag and the buffer on every path. -/
def handleSendMessage (settings : Settings) (streamCall : StreamCall)
    (sendResp : Option String) (s : AppState) (content : String) :
    AppState × Effects :=
  if jsTrim content = "" ∨ s.isGenerating = true then (s, Effects.none)
  else
    let active := s.activeConversationId
    let s1 := setStreamingContent (setIsGenerating s true) ""
    if settings.streamResponses then
      let s2 := streamCall.events.foldl applyOnChunk s1
      match streamCall.ret with
      | some conversationId =>
          let s3 := if jsTruthy active then s2
            else setActiveConversation s2 (some conversationId)
          (setStreamingContent (setIsGenerating s3 false) "",
           { requests := 1,
             invalidated := [QueryKey.conversation active, QueryKey.conversations],
             toasts := [] })
      | none =>
          (setStreamingContent (setIsGenerating s2 false) "",
           { requests := 1, invalidated := [],
             toasts := ["Failed to send message"] })
    else
      match sendResp with
      | some conversationId =>
          let s3 := if jsTruthy active then s1
            else setActiveConversation s1 (some conversationId)
          (setStreamingContent (setIsGenerating s3 false) "",
           { requests := 1,
             invalidated := [QueryKey.conversation active, QueryKey.conversations],
             toasts := [] })
      | none =>
          (setStreamingContent (setIsGenerating s1 false) "",
           { requests := 1, invalidated := [],
             toasts := ["Failed to send message"] })

/-! ## Characterisations of the stream consumer

The following definitions restate, line by line, what the consumer's
loop does, so that its behaviour can be described as list functions of
the parsed `data:` objects. -/

/-- The parse result of one received line: `some d` exactly when the
line starts with `data: ` and its remainder parses. -/
def lineObj (parse : String → Option DataLine) (line : String) :
    Option DataLine :=
  if jsStartsWith "data: " line then parse (jsSlice 6 line) else none

/-- All lines the loop processes, in processing order: each read
fragment is split on `'\n'` separately. -/
def lineList (reads : List String) : List String :=
  reads.flatMap jsSplitNl

/-- The parsed `data:` objects of a stream, in processing order. -/
def parsedDataObjs (parse : String → Option DataLine)
    (reads : List String) : List DataLine :=
  (lineList reads).filterMap (lineObj parse)

/-- Effect of one parsed object on the `conversationId` variable:
a truthy `conversation_id` field overwrites, anything else keeps. -/
def recordCid (acc : String) (d : DataLine) : String :=
  match d.conversation_id with
  | some c => if c != "" then c else acc
  | none => acc

/-- The `onChunk` invocations one parsed object triggers: one non-final
call for a truthy `content` field, none otherwise. -/
def emittedEvents (d : DataLine) : List (String × Bool) :=
  match d.content with
  | some c => if c != "" then [(c, false)] else []
  | none => []

/-- The truthy `content` field of a parsed object, if any. -/
def contentOf (d : DataLine) : Option String :=
  match d.content with
  | some c => if c != "" then some c else none
  | none => none

/-- The non-empty content payloads of a stream, in arrival order. -/
def streamedContents (parse : String → Option DataLine)
    (reads : List String) : List String :=
  (parsedDataObjs parse reads).filterMap contentOf

/-- Left-to-right concatenation `c1 ++ c2 ++ … ++ cn` of a chunk
list. -/
def concatChunks (l : List String) : String :=
  l.foldl (fun a c => a ++ c) ""

/-- The last non-empty entry of a conversation-id list, or `""` when
there is none. -/
def lastNonEmptyCid (ids : List String) : String :=
  (ids.filter (fun c => c != "")).getLastD ""

/-! ## Concrete sample values used by witnesses and counterexamples -/

/-- Default-like settings with streaming enabled. -/
def settings0 : Settings :=
  { defaultModel := "dolphin-mistral", topK := 40, maxTokens := 2048,
    streamResponses := true }

/-- An idle store state with an active conversation `"c1"`. -/
def state0 : AppState :=
  { conversations := [], activeConversationId := some "c1",
    isGenerating := false, streamingContent := "" }

/-- A store state in which a generation is already in flight. -/
def stateBusy : AppState :=
  { conversations := [], activeConversationId := some "c1",
    isGenerating := true, streamingContent := "A" }

/-- A successful stream call: two chunks, then the final callback, and
resolution with conversation id `"c77"`. -/
def streamCallOk : StreamCall :=
  { events := [("A", false), ("B", false), ("", true)], ret := some "c77" }

/-- A failing stream call: one chunk was delivered, then the promise
rejected. -/
def streamCallErr : StreamCall :=
  { events := [("A", false)], ret := none }

/-! ## Structural lemmas about the stream loop -/

/-- One line-loop step, described through `lineObj`: an unparsable line
keeps the accumulator, a parsed one updates the id and appends the
emitted events. -/
theorem processLine_eq (parse : String → Option DataLine)
    (acc : String × List (String × Bool)) (line : String) :
    processLine parse acc line =
      match lineObj parse line with
      | none => acc
      | some d => (recordCid acc.1 d, acc.2 ++ emittedEvents d) := by
  unfold processLine lineObj recordCid emittedEvents
  by_cases h : jsStartsWith "data: " line = true
  · simp only [h, if_true]
    cases parse (jsSlice 6 line) with
    | none => rfl
    | some d =>
        obtain ⟨cid, cont⟩ := d
        cases cid <;> cases cont <;> simp <;> split <;> simp
  · simp only [eq_false_of_ne_true h, Bool.false_eq_true, if_false]

/-- The line loop over a line list, as a fold of `recordCid` over the
parsed objects together with the concatenation of their events. -/
theorem foldl_processLine (parse : String → Option DataLine)
    (lines : List String) (cid : String) (evs : List (String × Bool)) :
    lines.foldl (processLine parse) (cid, evs) =
      ((lines.filterMap (lineObj parse)).foldl recordCid cid,
       evs ++ (lines.filterMap (lineObj parse)).flatMap emittedEvents) := by
  induction lines generalizing cid evs with
  | nil => simp
  | cons l ls ih =>
      rw [List.foldl_cons, processLine_eq]
      cases h : lineObj parse l with
      | none => simp [List.filterMap_cons, h, ih]
      | some d => simp [List.filterMap_cons, h, ih, List.flatMap_cons]

/-- Folding the per-read processing over all reads equals folding the
line processing over the flattened line list. -/
theorem foldl_processChunk (parse : String → Option DataLine)
    (reads : List String) (acc : String × List (String × Bool)) :
    reads.foldl (processChunk parse) acc =
      (lineList reads).foldl (processLine parse) acc := by
  induction reads generalizing acc with
  | nil => simp [lineList]
  | cons r rs ih =>
      simp [lineList, List.flatMap_cons, List.foldl_append, processChunk,
        ih, List.foldl_cons]

/-- The whole read loop, decomposed: the returned id is a `recordCid`
fold over the parsed objects, and the `onChunk` calls are their emitted
events followed by the single final call. -/
theorem sendMessageStreamLoop_eq (parse : String → Option DataLine)
    (reads : List String) :
    sendMessageStreamLoop parse reads =
      ((parsedDataObjs parse reads).foldl recordCid "",
       (parsedDataObjs parse reads).flatMap emittedEvents ++ [("", true)]) := by
  unfold sendMessageStreamLoop parsedDataObjs
  rw [foldl_processChunk, foldl_processLine]
  simp

/-- `recordCid` only looks at the `conversation_id` fields. -/
theorem foldl_recordCid_eq (objs : List DataLine) (a : String) :
    objs.foldl recordCid a =
      (objs.filterMap DataLine.conversation_id).foldl
        (fun acc c => if c != "" then c else acc) a := by
  induction objs generalizing a with
  | nil => rfl
  | cons d t ih =>
      cases h : d.conversation_id <;>
        simp [recordCid, h, List.filterMap_cons, ih]

/-- The keep-if-non-empty fold computes the last non-empty entry. -/
theorem foldl_lastCid (l : List String) (a : String) :
    l.foldl (fun acc c => if c != "" then c else acc) a =
      (l.filter (fun c => c != "")).getLastD a := by
  induction l generalizing a with
  | nil => rfl
  | cons c t ih =>
      rw [List.foldl_cons, List.filter_cons]
      by_cases h : (c != "") = true
      · rw [if_pos h, if_pos h, List.getLastD_cons]
        exact ih c
      · rw [if_neg h, if_neg h]
        exact ih a

/-- The conversation id returned by the loop is the last non-empty
`conversation_id` carried by a parsed `data:` line. -/
theorem loop_cid_eq (parse : String → Option DataLine)
    (reads : List String) :
    (sendMessageStreamLoop parse reads).1 =
      lastNonEmptyCid
        ((parsedDataObjs parse reads).filterMap DataLine.conversation_id) := by
  rw [sendMessageStreamLoop_eq, foldl_recordCid_eq, foldl_lastCid]
  rfl

/-- The emitted events are exactly the truthy contents, tagged
non-final. -/
theorem flatMap_emittedEvents (objs : List DataLine) :
    objs.flatMap emittedEvents =
      (objs.filterMap contentOf).map (fun c => (c, false)) := by
  induction objs with
  | nil => rfl
  | cons d t ih =>
      cases h : d.content with
      | none =>
          simp [emittedEvents, contentOf, h, List.filterMap_cons, ih,
            List.flatMap_cons]
      | some c =>
          by_cases hc : c = "" <;>
            simp [emittedEvents, contentOf, h, hc, List.filterMap_cons, ih,
              List.flatMap_cons]

/-- The `onChunk` call list of a whole run: one non-final call per
truthy content, in order, then the single final call. -/
theorem loop_events_eq (parse : String → Option DataLine)
    (reads : List String) :
    (sendMessageStreamLoop parse reads).2 =
      (streamedContents parse reads).map (fun c => (c, false)) ++
        [("", true)] := by
  rw [sendMessageStreamLoop_eq]
  simp [streamedContents, flatMap_emittedEvents]

/-- Folding `appendStreamingContent` only concatenates onto the
buffer. -/
theorem foldl_append_streaming (l : List String) (s : AppState) :
    (l.foldl appendStreamingContent s).streamingContent =
      l.foldl (fun a c => a ++ c) s.streamingContent := by
  induction l generalizing s with
  | nil => rfl
  | cons c t ih => simp [List.foldl_cons, ih, appendStreamingContent]

/-- The orchestrator callback applied to non-final events is exactly
`appendStreamingContent`. -/
theorem foldl_applyOnChunk_eq (l : List String) (s : AppState) :
    l.foldl (fun x c => applyOnChunk x (c, false)) s =
      l.foldl appendStreamingContent s :=
  rfl

/-- Splitting `l ++ ['\n']` on newlines, for `l` newline-free, yields
the two fields `l` and the empty remainder. -/
theorem splitNlAux_append_nl (l : List Char) (h : '\n' ∉ l) :
    splitNlAux (l ++ ['\n']) = [l, []] := by
  induction l with
  | nil => rfl
  | cons c cs ih =>
      have hc : ¬ c = '\n' := fun e => h (by rw [e]; exact List.mem_cons_self _ _)
      have ih2 := ih (fun m => h (List.mem_cons_of_mem _ m))
      simp [splitNlAux, hc, ih2]

/-- A newline-free line followed by `'\n'` splits into that line and an
empty trailing field. -/
theorem jsSplitNl_append_nl (line : String) (h : '\n' ∉ line.data) :
    jsSplitNl (line ++ "\n") = [line, ""] := by
  unfold jsSplitNl
  rw [String.data_append, show ("\n" : String).data = ['\n'] from rfl,
    splitNlAux_append_nl line.data h]
  rfl

/-! ## The claims -/

/-- Claim C1, counterexample: in the stream whose parsed `data:` lines
carry `conversation_id: "abc"` and then `conversation_id: ""`, the
consumer returns `"abc"`, not `""` — the truthiness test
`if (data.conversation_id)` makes the empty value never overwrite. -/
theorem lastWriteWins_refuted :
    (sendMessageStreamLoop sampleParse
      ["data: \x7b\"conversation_id\":\"abc\"\x7d\n",
       "data: \x7b\"conversation_id\":\"\"\x7d\n"]).1 = "abc" ∧
    (sendMessageStreamLoop sampleParse
      ["data: \x7b\"conversation_id\":\"abc\"\x7d\n",
       "data: \x7b\"conversation_id\":\"\"\x7d\n"]).1 ≠ "" := by
  decide

/-- Claim C1, amended: the identifier `sendMessageStream` returns is
the last NON-EMPTY `conversation_id` carried by a parsed `data:` line
(`""` when no line carries a non-empty one): every non-empty occurrence
overwrites the previously recorded value, an empty occurrence is
ignored. -/
theorem conversationId_lastNonempty (parse : String → Option DataLine)
    (reads : List String) :
    (sendMessageStreamLoop parse reads).1 =
      lastNonEmptyCid
        ((parsedDataObjs parse reads).filterMap DataLine.conversation_id) :=
  loop_cid_eq parse reads

/-- Claim C2, code evaluation: the complete line
`data: \x7b"content":"x"\x7d` plus newline, delivered as two reads split
mid-line, produces NO `onChunk("x", false)` call — each fragment is
split on its own and discarded, because the read loop keeps no
carry-over buffer for an incomplete trailing line — whereas the same
bytes in a single read produce exactly one such call. -/
theorem splitLine_drops_chunk :
    sendMessageStreamLoop sampleParse
        ["data: \x7b\"content\":\"", "x\"\x7d\n"] = ("", [("", true)]) ∧
    (sendMessageStreamLoop sampleParse
        ["data: \x7b\"content\":\"", "x\"\x7d\n"]).2.count ("x", false) = 0 ∧
    sendMessageStreamLoop sampleParse
        ["data: \x7b\"content\":\"x\"\x7d\n"] =
      ("", [("x", false), ("", true)]) := by
  decide

/-- Claim C3, counterexample: when the streamed send fails, no query at
all is invalidated — `invalidateQueries` sits in the `try` block, not
in the `finally` — so the claimed unconditional refresh does not
happen. -/
theorem refreshOnFailure_refuted :
    (handleSendMessage settings0 streamCallErr none state0
        "hi").2.invalidated = [] ∧
    ¬ (handleSendMessage settings0 streamCallErr none state0
        "hi").2.invalidated.count QueryKey.conversations = 1 := by
  decide

/-- Claim C3, amended: after every non-no-op `handleSendMessage` call
the streaming buffer is empty; on success exactly the two keys
`['conversation', id]` — `id` being the conversation active when the
call began — and `['conversations']` are invalidated, once each; on
failure nothing is invalidated. -/
theorem refreshOnlyOnSuccess (settings : Settings)
    (streamCall : StreamCall) (sendResp : Option String) (s : AppState)
    (content : String) (h1 : jsTrim content ≠ "")
    (h2 : s.isGenerating = false) :
    (handleSendMessage settings streamCall sendResp s
        content).1.streamingContent = "" ∧
    ((if settings.streamResponses then streamCall.ret else sendResp).isSome →
      (handleSendMessage settings streamCall sendResp s
          content).2.invalidated =
        [QueryKey.conversation s.activeConversationId,
         QueryKey.conversations]) ∧
    ((if settings.streamResponses then streamCall.ret else sendResp) = none →
      (handleSendMessage settings streamCall sendResp s
          content).2.invalidated = []) := by
  have hg : ¬ (jsTrim content = "" ∨ s.isGenerating = true) := by
    rintro (h | h)
    · exact h1 h
    · rw [h2] at h
      exact Bool.false_ne_true h
  unfold handleSendMessage
  rw [if_neg hg]
  cases hs : settings.streamResponses
  · cases hr : sendResp <;>
      simp [hs, hr, setStreamingContent, setIsGenerating,
        setActiveConversation]
  · cases hr : streamCall.ret <;>
      simp [hs, hr, setStreamingContent, setIsGenerating,
        setActiveConversation]

/-- Claim C3, witness: a concrete successful streamed send invalidates
exactly the two keys and leaves the buffer empty. -/
theorem refreshOnlyOnSuccess_witness :
    (handleSendMessage settings0 streamCallOk none state0
        "hi").1.streamingContent = "" ∧
    (handleSendMessage settings0 streamCallOk none state0
        "hi").2.invalidated =
      [QueryKey.conversation (some "c1"), QueryKey.conversations] :=
  ⟨(refreshOnlyOnSuccess settings0 streamCallOk none state0 "hi"
      (by decide) rfl).1,
   (refreshOnlyOnSuccess settings0 streamCallOk none state0 "hi"
      (by decide) rfl).2.1 (by decide)⟩

/-- Claim C4: the non-final `onChunk` calls of a run are exactly the
truthy `content` payloads of its parsed `data:` lines — once each, in
arrival order, tagged non-final; lines with an empty or absent
`content` contribute none — and replaying the orchestrator's chunk
callback over the whole call list from a cleared buffer leaves the
buffer equal to their left-to-right concatenation. -/
theorem chunksAccumulate (parse : String → Option DataLine)
    (reads : List String) (s : AppState) :
    (sendMessageStreamLoop parse reads).2.filter (fun e => !e.2) =
      (streamedContents parse reads).map (fun c => (c, false)) ∧
    ((sendMessageStreamLoop parse reads).2.foldl applyOnChunk
        (setStreamingContent s "")).streamingContent =
      concatChunks (streamedContents parse reads) := by
  constructor
  · rw [loop_events_eq, List.filter_append]
    have h1 : ((streamedContents parse reads).map
        (fun c => (c, false))).filter (fun e => !e.2) =
        (streamedContents parse reads).map (fun c => (c, false)) := by
      apply List.filter_eq_self.mpr
      intro a ha
      obtain ⟨c, _, rfl⟩ := List.mem_map.mp ha
      rfl
    rw [h1]
    simp
  · rw [loop_events_eq, List.foldl_append, List.foldl_map,
      foldl_applyOnChunk_eq]
    simp only [List.foldl_cons, List.foldl_nil]
    show ((streamedContents parse reads).foldl appendStreamingContent
      (setStreamingContent s "")).streamingContent = _
    rw [foldl_append_streaming]
    rfl

/-- Claim C4, witness: the chunk stream `["Hel", "lo", " world"]`
accumulates the buffer to `"Hello world"`. -/
theorem chunksAccumulate_witness :
    ((sendMessageStreamLoop sampleParse
        ["data: \x7b\"content\":\"Hel\"\x7d\n",
         "data: \x7b\"content\":\"lo\"\x7d\ndata: \x7b\"content\":\" world\"\x7d\n"]).2.foldl
          applyOnChunk (setStreamingContent state0 "")).streamingContent =
      "Hello world" :=
  ((chunksAccumulate sampleParse
      ["data: \x7b\"content\":\"Hel\"\x7d\n",
       "data: \x7b\"content\":\"lo\"\x7d\ndata: \x7b\"content\":\" world\"\x7d\n"]
      state0).2).trans (by decide)

/-- Claim C5: every error-free run invokes the final callback
`onChunk('', true)` exactly once, as the very last callback; and when
no parsed `data:` line carried a `conversation_id` field the returned
identifier is `""`. -/
theorem finalCallback_exactly_once (parse : String → Option DataLine)
    (reads : List String) :
    (sendMessageStreamLoop parse reads).2.filter (fun e => e.2) =
      [("", true)] ∧
    (sendMessageStreamLoop parse reads).2.getLast? = some ("", true) ∧
    ((parsedDataObjs parse reads).filterMap DataLine.conversation_id = [] →
      (sendMessageStreamLoop parse reads).1 = "") := by
  refine ⟨?_, ?_, fun h => ?_⟩
  · rw [loop_events_eq]
    simp [List.filter_append, List.filter_map, Function.comp]
  · rw [loop_events_eq]
    exact List.getLast?_concat _
  · rw [loop_cid_eq, h]
    rfl

/-- Claim C5, witness: a concrete one-chunk stream without any
`conversation_id` has exactly one final callback, last, and returns
`""`. -/
theorem finalCallback_exactly_once_witness :
    (sendMessageStreamLoop sampleParse
        ["data: \x7b\"content\":\"x\"\x7d\n"]).2.filter (fun e => e.2) =
      [("", true)] ∧
    (sendMessageStreamLoop sampleParse
        ["data: \x7b\"content\":\"x\"\x7d\n"]).2.getLast? =
      some ("", true) ∧
    (sendMessageStreamLoop sampleParse
        ["data: \x7b\"content\":\"x\"\x7d\n"]).1 = "" :=
  ⟨(finalCallback_exactly_once sampleParse _).1,
   (finalCallback_exactly_once sampleParse _).2.1,
   (finalCallback_exactly_once sampleParse _).2.2 (by decide)⟩

/-- Claim C6: with blank (post-trim) message text or a generation
already in flight, `handleSendMessage` is a strict no-op: the state —
`isGenerating`, the streaming buffer, the conversation list, the active
conversation — is returned unchanged and no request, invalidation or
toast is emitted. -/
theorem sendGuard_noop (settings : Settings) (streamCall : StreamCall)
    (sendResp : Option String) (s : AppState) (content : String)
    (h : jsTrim content = "" ∨ s.isGenerating = true) :
    handleSendMessage settings streamCall sendResp s content =
      (s, Effects.none) := by
  unfold handleSendMessage
  rw [if_pos h]

/-- Claim C6, witness: sending while a generation is in flight, and
sending whitespace-only text, are both strict no-ops. -/
theorem sendGuard_noop_witness :
    handleSendMessage settings0 streamCallOk none stateBusy "hi" =
      (stateBusy, Effects.none) ∧
    handleSendMessage settings0 streamCallOk none state0 "   " =
      (state0, Effects.none) :=
  ⟨sendGuard_noop settings0 streamCallOk none stateBusy "hi" (Or.inr rfl),
   sendGuard_noop settings0 streamCallOk none state0 "   "
     (Or.inl (by decide))⟩

/-- Claim C7: whenever the guard passes — so a send path actually runs
— `handleSendMessage` ends with `isGenerating = false` and an empty
streaming buffer, on the success and on the failure branch of either
send mode (the `finally` block). -/
theorem sendClears_flag_and_buffer (settings : Settings)
    (streamCall : StreamCall) (sendResp : Option String) (s : AppState)
    (content : String) (h1 : jsTrim content ≠ "")
    (h2 : s.isGenerating = false) :
    (handleSendMessage settings streamCall sendResp s
        content).1.isGenerating = false ∧
    (handleSendMessage settings streamCall sendResp s
        content).1.streamingContent = "" := by
  have hg : ¬ (jsTrim content = "" ∨ s.isGenerating = true) := by
    rintro (h | h)
    · exact h1 h
    · rw [h2] at h
      exact Bool.false_ne_true h
  unfold handleSendMessage
  rw [if_neg hg]
  cases hs : settings.streamResponses
  · cases hr : sendResp <;>
      simp [hs, hr, setStreamingContent, setIsGenerating]
  · cases hr : streamCall.ret <;>
      simp [hs, hr, setStreamingContent, setIsGenerating]

/-- Claim C7, witness: a concrete failing streamed send still ends with
the flag cleared and the buffer empty. -/
theorem sendClears_flag_and_buffer_witness :
    (handleSendMessage settings0 streamCallErr none state0
        "hi").1.isGenerating = false ∧
    (handleSendMessage settings0 streamCallErr none state0
        "hi").1.streamingContent = "" :=
  sendClears_flag_and_buffer settings0 streamCallErr none state0 "hi"
    (by decide) rfl

/-- Claim C8: a line that lacks the `data: ` marker, or whose remainder
fails to parse, triggers no `onChunk` call and is never fatal: the
line-loop step keeps its accumulator unchanged, and inserting such a
line (as a read of its own) anywhere into a stream leaves the whole
run's result untouched. -/
theorem malformedLine_ignored (parse : String → Option DataLine)
    (line : String) (r1 r2 : List String)
    (h : jsStartsWith "data: " line = false ∨
      parse (jsSlice 6 line) = none)
    (hnl : '\n' ∉ line.data) :
    (∀ acc, processLine parse acc line = acc) ∧
    sendMessageStreamLoop parse (r1 ++ (line ++ "\n") :: r2) =
      sendMessageStreamLoop parse (r1 ++ r2) := by
  have hobj : lineObj parse line = none := by
    rcases h with h | h
    · simp [lineObj, h]
    · unfold lineObj
      split
      · exact h
      · rfl
  have hline : ∀ acc, processLine parse acc line = acc := by
    intro acc
    rw [processLine_eq, hobj]
  have hempty : ∀ acc, processLine parse acc "" = acc := by
    intro acc
    have h0 : lineObj parse "" = none := by
      have hW : jsStartsWith "data: " "" = false := by decide
      simp [lineObj, hW]
    rw [processLine_eq, h0]
  refine ⟨hline, ?_⟩
  have hchunk : ∀ acc, processChunk parse acc (line ++ "\n") = acc := by
    intro acc
    unfold processChunk
    rw [jsSplitNl_append_nl line hnl]
    simp [List.foldl_cons, List.foldl_nil, hline, hempty]
  have hfold : (r1 ++ (line ++ "\n") :: r2).foldl (processChunk parse)
      ("", []) = (r1 ++ r2).foldl (processChunk parse) ("", []) := by
    rw [List.foldl_append, List.foldl_append, List.foldl_cons, hchunk]
  unfold sendMessageStreamLoop
  rw [hfold]

/-- Claim C8, witness: a comment line and a `data: ` line carrying
broken JSON, inserted into a stream, change nothing. -/
theorem malformedLine_ignored_witness :
    processLine sampleParse ("", []) ": keep-alive" = ("", []) ∧
    sendMessageStreamLoop sampleParse
        ([] ++ (": keep-alive" ++ "\n") ::
          ["data: \x7b\"content\":\"x\"\x7d\n"]) =
      sendMessageStreamLoop sampleParse
        ([] ++ ["data: \x7b\"content\":\"x\"\x7d\n"]) :=
  ⟨(malformedLine_ignored sampleParse ": keep-alive" []
      ["data: \x7b\"content\":\"x\"\x7d\n"] (Or.inl (by decide))
      (by decide)).1 ("", []),
   (malformedLine_ignored sampleParse ": keep-alive" []
      ["data: \x7b\"content\":\"x\"\x7d\n"] (Or.inl (by decide))
      (by decide)).2⟩

/-- Claim C9: a non-success HTTP status or an unreadable body makes
`sendMessageStream` throw without a single `onChunk` invocation — in
particular none with `isFinal = true`. -/
theorem transportError_no_callbacks (parse : String → Option DataLine)
    (resp : FetchResponse)
    (h : resp.ok = false ∨ resp.body = none) :
    (sendMessageStream parse resp).ret = none ∧
    (sendMessageStream parse resp).events = [] := by
  unfold sendMessageStream
  rcases h with h | h
  · simp [h]
  · cases hok : resp.ok <;> simp [h, hok]

/-- Claim C9, witness: a 500 response with unreadable body throws with
no callbacks. -/
theorem transportError_no_callbacks_witness :
    (sendMessageStream sampleParse
        { ok := false, status := 500, body := none }).ret = none ∧
    (sendMessageStream sampleParse
        { ok := false, status := 500, body := none }).events = [] :=
  transportError_no_callbacks sampleParse
    { ok := false, status := 500, body := none } (Or.inl rfl)

/-- Claim C10: `getConversations` maps every thrown transport or HTTP
error, and every response body without a `conversations` field, to the
empty list — no error reaches the caller. -/
theorem getConversations_never_throws :
    ∀ e : String, getConversations (Except.error e) = [] ∧
      getConversations (Except.ok none) = [] :=
  fun _ => ⟨rfl, rfl⟩

end LocalAI
